import Mathlib

/-
Verification of `src/provision.py` (CloudFormation provisioning wrapper).

The script is a sequential orchestration of five remote calls:
validate_template, describe_stacks, create_stack, update_stack and a
tags-only stack update, plus a busy-wait polling loop (`wait_for_stack`).
We embed it shallowly:

* `wait_for_stack` (lines 145-169) is embedded twice, over two models of
  the remote status source.  In the source, `DEBUG = True` (line 32), so
  every loop iteration whose condition query lands in `wait_list` issues a
  SECOND describe call (line 165) purely to print the status, then sleeps.
  - `wait_for_stack_mock`: a scripted mock in which the i-th describe call
    returns `script i` (the model used by the spec's "scripted sequence of
    statuses" test property).
  - `wait_for_stack_timed`: the status is a function of time, advancing
    only while sleeping; both describe calls of iteration n return
    `script n`.
  Both take a fuel bound on loop iterations; `none` means the loop was
  still running when the fuel ran out, and `some (q, s)` means the source
  function returned `True` after issuing `q` describe calls and `s` sleeps.

* The orchestration functions (`validate_template`, `provision`,
  `set_tags`, `update_stack`, `create_stack`) are embedded as functions of
  an environment `Env` scripting the outcome of each remote call
  (`Except.error msg` models `botocore.exceptions.ClientError` with
  `str(err) = msg`).  Each returns an `Outcome` (normal return value, or
  `exit err` modelling `sys.exit(err)`, which aborts the process with a
  non-zero status and is not caught by the `except ClientError` handlers)
  together with the ordered list of remote calls issued (`Event`s).  The
  inner `wait_for_stack` calls are recorded as `waitCall` events carrying
  the source's poll-interval argument; their termination behaviour is
  covered separately by the waiter model above.

Python string operations are modelled over character lists: `pyIn` is the
substring test `a in b`, `endswith` is `str.endswith`.
-/

namespace Provision

/-- Module-level debug flag, `DEBUG = True` at line 32 of the source. -/
def DEBUG : Bool := true

/-- Helper for the Python substring test: `strInfix n h` holds when the
character list `n` occurs contiguously inside `h`. -/
def strInfix : List Char → List Char → Bool
  | needle, [] => needle.isEmpty
  | needle, c :: t => needle.isPrefixOf (c :: t) || strInfix needle t

/-- Python's `needle in hay` on strings (substring containment). -/
def pyIn (needle hay : String) : Bool :=
  strInfix needle.toList hay.toList

/-- Python's `s.endswith(suffix)`. -/
def endswith (s suffix : String) : Bool :=
  List.isSuffixOf suffix.toList s.toList

/-- The fixed in-progress set of `wait_for_stack`, lines 153-162 of the
source.  Note that `ROLLBACK_COMPLETE` (line 160) is a member. -/
def wait_list : List String :=
  [ "CREATE_IN_PROGRESS",
    "DELETE_COMPLETE_CLEANUP_IN_PROGRESS",
    "DELETE_IN_PROGRESS",
    "UPDATE_IN_PROGRESS",
    "UPDATE_COMPLETE_CLEANUP_IN_PROGRESS",
    "UPDATE_ROLLBACK_COMPLETE_CLEANUP_IN_PROGRESS",
    "ROLLBACK_COMPLETE",
    "ROLLBACK_IN_PROGRESS" ]

/-- Loop of `wait_for_stack` over a scripted mock: the i-th describe call
returns `script i`.  Arguments: remaining fuel (iterations), index of the
next describe call, describe calls issued so far, sleeps so far.  Each
iteration evaluates the `while` condition with one describe call; if the
status is in `wait_list` and `DEBUG` is set, a second describe call is
issued for the debug print (line 165), then the loop sleeps and repeats;
otherwise the function returns `True`. -/
def waitPollMock (script : Nat → String) :
    Nat → Nat → Nat → Nat → Option (Nat × Nat)
  | 0, _, _, _ => none
  | fuel + 1, idx, q, s =>
    if script idx ∈ wait_list then
      if DEBUG then waitPollMock script fuel (idx + 2) (q + 2) (s + 1)
      else waitPollMock script fuel (idx + 1) (q + 1) (s + 1)
    else some (q + 1, s)

/-- `wait_for_stack` over the scripted mock, started as at line 163. -/
def wait_for_stack_mock (script : Nat → String) (fuel : Nat) :
    Option (Nat × Nat) :=
  waitPollMock script fuel 0 0 0

/-- Loop of `wait_for_stack` over a timed status source: time advances
only across `time.sleep`, so both describe calls of iteration n (the
`while` condition and the debug re-query) observe `script n`. -/
def waitPollTimed (script : Nat → String) :
    Nat → Nat → Nat → Nat → Option (Nat × Nat)
  | 0, _, _, _ => none
  | fuel + 1, n, q, s =>
    if script n ∈ wait_list then
      if DEBUG then waitPollTimed script fuel (n + 1) (q + 2) (s + 1)
      else waitPollTimed script fuel (n + 1) (q + 1) (s + 1)
    else some (q + 1, s)

/-- `wait_for_stack` over the timed status source. -/
def wait_for_stack_timed (script : Nat → String) (fuel : Nat) :
    Option (Nat × Nat) :=
  waitPollTimed script fuel 0 0 0

/-- The spec's scripted sequence [in-progress, in-progress, complete],
held constant at its settled value from index 2 on. -/
def script3 : Nat → String
  | 0 => "CREATE_IN_PROGRESS"
  | 1 => "CREATE_IN_PROGRESS"
  | _ => "CREATE_COMPLETE"

theorem waitPollMock_run (script : Nat → String) :
    ∀ m idx q s : Nat,
      (∀ j, j < m → script (idx + 2 * j) ∈ wait_list) →
      script (idx + 2 * m) ∉ wait_list →
      waitPollMock script (m + 1) idx q s = some (q + 2 * m + 1, s + m) := by
  intro m
  induction m with
  | zero =>
    intro idx q s _ hout
    have hidx : idx + 2 * 0 = idx := by omega
    rw [hidx] at hout
    simp [waitPollMock, hout]
  | succ m ih =>
    intro idx q s hin hout
    have h0 : script idx ∈ wait_list := by
      have h := hin 0 (by omega)
      have hidx : idx + 2 * 0 = idx := by omega
      rwa [hidx] at h
    have hrec := ih (idx + 2) (q + 2) (s + 1)
      (by
        intro j hj
        have h := hin (j + 1) (by omega)
        have harg : idx + 2 * (j + 1) = idx + 2 + 2 * j := by omega
        rwa [harg] at h)
      (by
        have harg : idx + 2 * (m + 1) = idx + 2 + 2 * m := by omega
        rwa [harg] at hout)
    have step : waitPollMock script (m + 1 + 1) idx q s
        = if script idx ∈ wait_list then
            (if DEBUG then waitPollMock script (m + 1) (idx + 2) (q + 2) (s + 1)
             else waitPollMock script (m + 1) (idx + 1) (q + 1) (s + 1))
          else some (q + 1, s) := rfl
    rw [step, if_pos h0, if_pos (show DEBUG = true from rfl), hrec]
    simp only [Option.some.injEq, Prod.mk.injEq]
    omega

/-- C1 (counterexample): on the scripted sequence
[in-progress, in-progress, complete] the waiter issues 3 describe calls
but sleeps only ONCE, not twice as the claim states: because
`DEBUG = True`, the second in-progress status is consumed by the debug
re-query inside the first iteration, not by a second condition check. -/
theorem C1_cex :
    script3 0 ∈ wait_list ∧ script3 1 ∈ wait_list ∧ script3 2 ∉ wait_list ∧
    wait_for_stack_mock script3 10 = some (3, 1) ∧
    wait_for_stack_mock script3 10 ≠ some (3, 2) := by
  decide

/-- C1 (amended): with `DEBUG = True` each in-progress iteration consumes
TWO scripted statuses (condition query plus debug re-query) and sleeps
once.  For a script whose statuses at the condition-query positions
0, 2, ..., 2(m-1) are in the in-progress set and whose status at position
2m is outside it, `wait_for_stack` returns `True` after exactly 2m+1
describe calls and exactly m sleeps; in particular the scripted sequence
[in-progress, in-progress, complete] yields 3 describe calls and 1 sleep. -/
theorem C1_thm (script : Nat → String) (m : Nat)
    (hin : ∀ j, j < m → script (2 * j) ∈ wait_list)
    (hout : script (2 * m) ∉ wait_list) :
    wait_for_stack_mock script (m + 1) = some (2 * m + 1, m) := by
  have h := waitPollMock_run script m 0 0 0
    (by
      intro j hj
      have h := hin j hj
      have harg : 0 + 2 * j = 2 * j := by omega
      rwa [harg])
    (by
      have harg : 0 + 2 * m = 2 * m := by omega
      rwa [harg])
  simpa [wait_for_stack_mock] using h

theorem C1_witness :
    wait_for_stack_mock script3 2 = some (3, 1) :=
  C1_thm script3 1 (by decide) (by decide)

theorem waitPollTimed_none (script : Nat → String)
    (hall : ∀ n, script n ∈ wait_list) :
    ∀ fuel n q s : Nat, waitPollTimed script fuel n q s = none := by
  intro fuel
  induction fuel with
  | zero => intro n q s; simp [waitPollTimed]
  | succ fuel ih =>
    intro n q s
    simp [waitPollTimed, hall n, DEBUG, ih]

theorem waitPollTimed_isSome (script : Nat → String) :
    ∀ fuel n q s : Nat, (∃ k, k < fuel ∧ script (n + k) ∉ wait_list) →
      (waitPollTimed script fuel n q s).isSome = true := by
  intro fuel
  induction fuel with
  | zero =>
    intro n q s h
    rcases h with ⟨k, hk, _⟩
    omega
  | succ fuel ih =>
    intro n q s h
    by_cases hmem : script n ∈ wait_list
    · rcases h with ⟨k, hk, hout⟩
      have hkpos : k ≠ 0 := by
        intro h0
        rw [h0] at hout
        simp at hout
        exact hout hmem
      have hrec := ih (n + 1) (q + 2) (s + 1)
        ⟨k - 1, by omega, by
          have harg : n + 1 + (k - 1) = n + k := by omega
          rwa [harg]⟩
      simpa [waitPollTimed, hmem, DEBUG] using hrec
    · simp [waitPollTimed, hmem]

/-- C2 (counterexample): `ROLLBACK_COMPLETE` is one of the settled states
("rollback-complete"), yet it is a member of `wait_list` (line 160 of the
source), so the waiter does NOT stop on it: after 50 poll iterations on a
stack settled in `ROLLBACK_COMPLETE` the loop is still running. -/
theorem C2_cex :
    "ROLLBACK_COMPLETE" ∈ wait_list ∧
    wait_for_stack_timed (fun _ => "ROLLBACK_COMPLETE") 50 = none := by
  decide

/-- C2 (amended): only membership in `wait_list` keeps the loop running,
and any status outside the list ends the wait on the first query.  The
settled states create-complete, update-complete and the failure states
are outside the list, but `ROLLBACK_COMPLETE` is a member, so a stack
settled in rollback-complete does not end the wait: the waiter loops on
it forever. -/
theorem C2_thm :
    (∀ st : String, st ∉ wait_list →
      ∀ fuel : Nat,
        wait_for_stack_timed (fun _ => st) (fuel + 1) = some (1, 0)) ∧
    "CREATE_COMPLETE" ∉ wait_list ∧
    "UPDATE_COMPLETE" ∉ wait_list ∧
    "UPDATE_ROLLBACK_COMPLETE" ∉ wait_list ∧
    "CREATE_FAILED" ∉ wait_list ∧
    "ROLLBACK_FAILED" ∉ wait_list ∧
    "UPDATE_ROLLBACK_FAILED" ∉ wait_list ∧
    "DELETE_FAILED" ∉ wait_list ∧
    "ROLLBACK_COMPLETE" ∈ wait_list ∧
    (∀ fuel : Nat,
      wait_for_stack_timed (fun _ => "ROLLBACK_COMPLETE") fuel = none) := by
  refine ⟨?_, by decide, by decide, by decide, by decide, by decide,
    by decide, by decide, by decide, ?_⟩
  · intro st hst fuel
    simp [wait_for_stack_timed, waitPollTimed, hst]
  · intro fuel
    exact waitPollTimed_none _ (fun _ => by decide) fuel 0 0 0

theorem C2_witness :
    wait_for_stack_timed (fun _ => "CREATE_COMPLETE") 1 = some (1, 0) :=
  C2_thm.1 "CREATE_COMPLETE" (by decide) 0

/-- C8: the waiter returns `True` as soon as the status leaves the
in-progress set — fuel reaching the first escape time suffices — and it
has no iteration bound or timeout: on a status source that stays inside
the in-progress set it is still looping after any amount of fuel. -/
theorem C8_thm (script : Nat → String) :
    (∀ n0 : Nat, script n0 ∉ wait_list →
      (wait_for_stack_timed script (n0 + 1)).isSome = true) ∧
    ((∀ n, script n ∈ wait_list) →
      ∀ fuel, wait_for_stack_timed script fuel = none) := by
  constructor
  · intro n0 h
    exact waitPollTimed_isSome script (n0 + 1) 0 0 0 ⟨n0, by omega, by simpa using h⟩
  · intro hall fuel
    exact waitPollTimed_none script hall fuel 0 0 0

theorem C8_witness :
    (wait_for_stack_timed (fun _ => "CREATE_COMPLETE") 1).isSome = true ∧
    wait_for_stack_timed (fun _ => "UPDATE_IN_PROGRESS") 25 = none :=
  ⟨(C8_thm (fun _ => "CREATE_COMPLETE")).1 0 (by decide),
   (C8_thm (fun _ => "UPDATE_IN_PROGRESS")).2 (fun _ => by decide) 25⟩

/-- Remote calls issued by the script, in order.  `waitCall` records an
invocation of `wait_for_stack` with its poll-interval argument;
`createCall` carries the `Capabilities`, `TemplateBody` and `OnFailure`
arguments of `conn.create_stack`; `updateCall` the `Capabilities` and
`TemplateBody` of `conn.update_stack`; `tagUpdate` the `Capabilities`,
`UsePreviousTemplate` and `Tags` of `conn.Stack(...).update`. -/
inductive Event where
  | validateCall : Event
  | describeCall (stackName : String) : Event
  | waitCall (stackName : String) (waitTime : Nat) : Event
  | createCall (stackName : String) (capabilities : List String)
      (templateBody : String) (onFailure : String) : Event
  | updateCall (stackName : String) (capabilities : List String)
      (templateBody : String) : Event
  | tagUpdate (stackName : String) (capabilities : List String)
      (usePreviousTemplate : Bool) (tags : List (String × String)) : Event
  deriving DecidableEq

/-- Result of running one of the script's functions: a normal return
value, or `exit err` modelling `sys.exit(err)` (process aborts with a
non-zero status, printing `err`; the `SystemExit` it raises is not caught
by any `except botocore.exceptions.ClientError` handler in the script). -/
inductive Outcome (α : Type) where
  | exit (err : String) : Outcome α
  | ok (a : α) : Outcome α
  deriving DecidableEq

/-- Scripted outcomes of the five remote endpoints touched by the script.
`Except.error msg` models `botocore.exceptions.ClientError` with
`str(err) = msg`.  `describeRes` returns the `StackName`s of the stacks in
`describe_stacks(StackName=STACK_NAME)['Stacks']`. -/
structure Env where
  validateRes : Except String Unit
  describeRes : Except String (List String)
  updateRes : Except String Unit
  createRes : Except String Unit
  tagRes : Except String Unit

/-- The CI/CD environment variables the script reads into globals. -/
structure Config where
  STACK_NAME : String
  BILLING_ENV : String
  TEAM : String
  deriving DecidableEq

/-- Embedding of `validate_template` (lines 95-110): submits the template;
on success returns `True`, on `ClientError` calls `sys.exit(err)`. -/
def validate_template (env : Env) : Outcome Bool × List Event :=
  match env.validateRes with
  | .ok _ => (.ok true, [.validateCall])
  | .error err => (.exit err, [.validateCall])

/-- Embedding of `set_tags` (lines 172-203): waits, issues the tags-only
stack update with `CAPABILITY_IAM`, `UsePreviousTemplate=True` and the
fixed tag triple, waits again and returns `True`; on a `ClientError`
whose message ends with "to be performed." it returns `False` (the no-op
case), on any other `ClientError` it calls `sys.exit(err)`. -/
def set_tags (env : Env) (stack_name tag_value team : String) :
    Outcome Bool × List Event :=
  let pre : List Event :=
    [.waitCall stack_name 10,
     .tagUpdate stack_name ["CAPABILITY_IAM"] true
       [("Billing_Env", tag_value), ("Team", team), ("Project", stack_name)]]
  match env.tagRes with
  | .ok _ => (.ok true, pre ++ [.waitCall stack_name 10])
  | .error err =>
    if endswith err "to be performed." then (.ok false, pre)
    else (.exit err, pre)

/-- Embedding of `update_stack` (lines 206-233): waits, issues the update
with `CAPABILITY_IAM`; on success waits again, runs `set_tags` and returns
`True`; on ANY `ClientError` from the update call it prints the no-updates
message, still runs `set_tags`, and returns `True`.  A `sys.exit` raised
inside `set_tags` propagates (it is not a `ClientError`). -/
def update_stack (env : Env) (cfg : Config) (template : String) :
    Outcome Bool × List Event :=
  let pre : List Event :=
    [.waitCall cfg.STACK_NAME 10,
     .updateCall cfg.STACK_NAME ["CAPABILITY_IAM"] template]
  match env.updateRes with
  | .ok _ =>
    match set_tags env cfg.STACK_NAME cfg.BILLING_ENV cfg.TEAM with
    | (.exit err, ev) => (.exit err, pre ++ [.waitCall cfg.STACK_NAME 10] ++ ev)
    | (.ok _, ev) => (.ok true, pre ++ [.waitCall cfg.STACK_NAME 10] ++ ev)
  | .error _ =>
    match set_tags env cfg.STACK_NAME cfg.BILLING_ENV cfg.TEAM with
    | (.exit err, ev) => (.exit err, pre ++ ev)
    | (.ok _, ev) => (.ok true, pre ++ ev)

/-- Embedding of `create_stack` (lines 236-261): issues the create with
`CAPABILITY_IAM` and `OnFailure='DO_NOTHING'`; on success waits with a
60-second poll interval, runs `set_tags` and returns `True`; on a
`ClientError` from the create call it calls `sys.exit(err)`. -/
def create_stack (env : Env) (cfg : Config) (template : String) :
    Outcome Bool × List Event :=
  let pre : List Event :=
    [.createCall cfg.STACK_NAME ["CAPABILITY_IAM"] template "DO_NOTHING"]
  match env.createRes with
  | .ok _ =>
    match set_tags env cfg.STACK_NAME cfg.BILLING_ENV cfg.TEAM with
    | (.exit err, ev) => (.exit err, pre ++ [.waitCall cfg.STACK_NAME 60] ++ ev)
    | (.ok _, ev) => (.ok true, pre ++ [.waitCall cfg.STACK_NAME 60] ++ ev)
  | .error err => (.exit err, pre)

/-- The `for stack in check['Stacks']` loop of `provision` (lines
131-133): runs `update_stack` for every returned stack whose `StackName`
contains `STACK_NAME` as a substring (Python's `in`). -/
def provisionLoop (env : Env) (cfg : Config) (template : String) :
    List String → Outcome Unit × List Event
  | [] => (.ok (), [])
  | name :: rest =>
    if pyIn cfg.STACK_NAME name then
      match update_stack env cfg template with
      | (.exit err, ev) => (.exit err, ev)
      | (.ok _, ev) =>
        match provisionLoop env cfg template rest with
        | (o, ev2) => (o, ev ++ ev2)
    else provisionLoop env cfg template rest

/-- Embedding of `provision` (lines 113-142): validates the template
(whose own `sys.exit` on failure propagates uncaught), queries
`describe_stacks(StackName=STACK_NAME)` and runs `update_stack` for each
matching stack; if the describe call raises a `ClientError` whose message
ends with "does not exist", runs `create_stack` and returns `True`, and
on any other `ClientError` calls `sys.exit(err)`.  In all remaining paths
it returns the initial `ret = False`. -/
def provision (env : Env) (cfg : Config) (template : String) :
    Outcome Bool × List Event :=
  match validate_template env with
  | (.exit err, ev) => (.exit err, ev)
  | (.ok validated, ev) =>
    if validated then
      match env.describeRes with
      | .ok stackList =>
        match provisionLoop env cfg template stackList with
        | (.exit err, ev2) => (.exit err, ev ++ [.describeCall cfg.STACK_NAME] ++ ev2)
        | (.ok _, ev2) => (.ok false, ev ++ [.describeCall cfg.STACK_NAME] ++ ev2)
      | .error err =>
        if endswith err "does not exist" then
          match create_stack env cfg template with
          | (.exit e2, ev2) => (.exit e2, ev ++ [.describeCall cfg.STACK_NAME] ++ ev2)
          | (.ok _, ev2) => (.ok true, ev ++ [.describeCall cfg.STACK_NAME] ++ ev2)
        else (.exit err, ev ++ [.describeCall cfg.STACK_NAME])
    else (.ok false, ev)

/-- Recogniser for create-stack calls. -/
def Event.isCreateCall : Event → Bool
  | .createCall _ _ _ _ => true
  | _ => false

/-- Recogniser for update-stack calls. -/
def Event.isUpdateCall : Event → Bool
  | .updateCall _ _ _ => true
  | _ => false

/-- Recogniser for tags-only stack updates. -/
def Event.isTagCall : Event → Bool
  | .tagUpdate _ _ _ _ => true
  | _ => false

/-- Number of events in a trace satisfying `p`. -/
def countEvents (p : Event → Bool) (evs : List Event) : Nat :=
  (evs.filter p).length

/-- Configuration used by the concrete witness runs. -/
def cfgDemo : Config := ⟨"demo-app", "prod", "platform"⟩

/-- Witness environment: absent stack, every call succeeds. -/
def envCreate : Env :=
  ⟨.ok (), .error "Stack with id demo-app does not exist", .ok (), .ok (), .ok ()⟩

/-- Witness environment: existing stack, every call succeeds. -/
def envUpdate : Env := ⟨.ok (), .ok ["demo-app"], .ok (), .ok (), .ok ()⟩

/-- Witness environment: existing stack, the update call fails. -/
def envUpdErr : Env :=
  ⟨.ok (), .ok ["demo-app"], .error "some update error", .ok (), .ok ()⟩

/-- Witness environment: the existence probe fails with an unrelated error. -/
def envBadProbe : Env := ⟨.ok (), .error "AccessDenied", .ok (), .ok (), .ok ()⟩

/-- Witness environment: the template fails remote validation. -/
def envBadTpl : Env :=
  ⟨.error "Template format error", .ok ["demo-app"], .ok (), .ok (), .ok ()⟩

/-- Witness environment: the tags-only update is a benign no-op. -/
def envTagNoop : Env :=
  ⟨.ok (), .ok ["demo-app"], .ok (), .ok (),
   .error "No updates are to be performed."⟩

/-- Witness environment: the tags-only update fails hard. -/
def envTagErr : Env :=
  ⟨.ok (), .ok ["demo-app"], .ok (), .ok (), .error "AccessDenied"⟩

theorem countEvents_append (p : Event → Bool) (a b : List Event) :
    countEvents p (a ++ b) = countEvents p a + countEvents p b := by
  simp [countEvents, List.filter_append]

theorem countEvents_nil (p : Event → Bool) : countEvents p [] = 0 := rfl

theorem countEvents_cons (p : Event → Bool) (e : Event) (evs : List Event) :
    countEvents p (e :: evs) = (if p e then 1 else 0) + countEvents p evs := by
  by_cases h : p e
  · simp [countEvents, List.filter_cons, h]
    omega
  · simp [countEvents, List.filter_cons, h]

theorem isPrefixOf_self (l : List Char) : l.isPrefixOf l = true := by
  simp [List.isPrefixOf_iff_prefix]

theorem pyIn_self (s : String) : pyIn s s = true := by
  unfold pyIn
  cases h : s.toList with
  | nil => simp [strInfix]
  | cons c t => simp [strInfix, isPrefixOf_self]

theorem set_tags_counts (env : Env) (n t w : String) :
    countEvents Event.isCreateCall (set_tags env n t w).2 = 0 ∧
    countEvents Event.isUpdateCall (set_tags env n t w).2 = 0 ∧
    countEvents Event.isTagCall (set_tags env n t w).2 = 1 := by
  rcases h : env.tagRes with e | u
  · by_cases hb : endswith e "to be performed." = true <;>
      simp [set_tags, h, hb, countEvents, Event.isCreateCall, Event.isUpdateCall,
        Event.isTagCall]
  · simp [set_tags, h, countEvents, Event.isCreateCall, Event.isUpdateCall,
      Event.isTagCall]

theorem update_stack_counts (env : Env) (cfg : Config) (template : String) :
    countEvents Event.isCreateCall (update_stack env cfg template).2 = 0 ∧
    countEvents Event.isUpdateCall (update_stack env cfg template).2 = 1 ∧
    countEvents Event.isTagCall (update_stack env cfg template).2 = 1 := by
  obtain ⟨h1, h2, h3⟩ := set_tags_counts env cfg.STACK_NAME cfg.BILLING_ENV cfg.TEAM
  rcases hset : set_tags env cfg.STACK_NAME cfg.BILLING_ENV cfg.TEAM with ⟨o, ev⟩
  rw [hset] at h1 h2 h3
  simp only [Prod.snd] at h1 h2 h3
  rcases o with err | b <;> rcases hu : env.updateRes with e | u <;>
    simp [update_stack, hu, hset, countEvents_append, countEvents_cons,
      countEvents_nil, Event.isCreateCall, Event.isUpdateCall,
      Event.isTagCall, h1, h2, h3]

theorem create_stack_counts (env : Env) (cfg : Config) (template : String) :
    countEvents Event.isCreateCall (create_stack env cfg template).2 = 1 ∧
    countEvents Event.isUpdateCall (create_stack env cfg template).2 = 0 := by
  obtain ⟨h1, h2, _⟩ := set_tags_counts env cfg.STACK_NAME cfg.BILLING_ENV cfg.TEAM
  rcases hset : set_tags env cfg.STACK_NAME cfg.BILLING_ENV cfg.TEAM with ⟨o, ev⟩
  rw [hset] at h1 h2
  simp only [Prod.snd] at h1 h2
  rcases o with err | b <;> rcases hc : env.createRes with e | u <;>
    simp [create_stack, hc, hset, countEvents_append, countEvents_cons,
      countEvents_nil, Event.isCreateCall, Event.isUpdateCall, h1, h2]

/-- C3: if the update call raises any `ClientError` (not only the
"no updates" case), `update_stack` still attempts the tag reconciliation
(exactly one tags-only update appears in the trace), and, whenever the
tag reconciliation itself does not `sys.exit` (it succeeds or is the
benign no-op), `update_stack` returns `True`: the update error is
swallowed, never a failure. -/
theorem C3_thm (env : Env) (cfg : Config) (template err : String)
    (hupd : env.updateRes = .error err) :
    countEvents Event.isTagCall (update_stack env cfg template).2 = 1 ∧
    (env.tagRes = .ok () ∨
      (∃ e, env.tagRes = .error e ∧ endswith e "to be performed." = true) →
      (update_stack env cfg template).1 = .ok true) := by
  refine ⟨(update_stack_counts env cfg template).2.2, ?_⟩
  intro htag
  rcases htag with h | ⟨e, h, hb⟩
  · simp [update_stack, set_tags, hupd, h]
  · simp [update_stack, set_tags, hupd, h, hb]

theorem C3_witness :
    countEvents Event.isTagCall (update_stack envUpdErr cfgDemo "TPL").2 = 1 ∧
    (update_stack envUpdErr cfgDemo "TPL").1 = Outcome.ok true :=
  ⟨(C3_thm envUpdErr cfgDemo "TPL" "some update error" rfl).1,
   (C3_thm envUpdErr cfgDemo "TPL" "some update error" rfl).2 (Or.inl rfl)⟩

/-- C4: when the existence probe inside `provision` raises a
`ClientError`, the create path is taken exactly when the error message
ends with "does not exist" (and then the update path is never entered);
on any other probe error the process exits non-zero with that error and
neither the create call nor the update call is ever issued. -/
theorem C4_thm (env : Env) (cfg : Config) (template err : String)
    (hval : env.validateRes = .ok ())
    (hdesc : env.describeRes = .error err) :
    (endswith err "does not exist" = true →
      countEvents Event.isCreateCall (provision env cfg template).2 = 1 ∧
      countEvents Event.isUpdateCall (provision env cfg template).2 = 0) ∧
    (endswith err "does not exist" = false →
      (provision env cfg template).1 = .exit err ∧
      countEvents Event.isCreateCall (provision env cfg template).2 = 0 ∧
      countEvents Event.isUpdateCall (provision env cfg template).2 = 0) := by
  constructor
  · intro hne
    obtain ⟨h1, h2⟩ := create_stack_counts env cfg template
    rcases hcre : create_stack env cfg template with ⟨o, ev2⟩
    rw [hcre] at h1 h2
    simp only [Prod.snd] at h1 h2
    rcases o with e | b <;>
      simp [provision, validate_template, hval, hdesc, hne, hcre,
        countEvents_append, countEvents_cons, countEvents_nil,
        Event.isCreateCall, Event.isUpdateCall, h1, h2]
  · intro hne
    simp [provision, validate_template, hval, hdesc, hne, countEvents,
      Event.isCreateCall, Event.isUpdateCall]

theorem C4_witness :
    (countEvents Event.isCreateCall (provision envCreate cfgDemo "TPL").2 = 1 ∧
     countEvents Event.isUpdateCall (provision envCreate cfgDemo "TPL").2 = 0) ∧
    ((provision envBadProbe cfgDemo "TPL").1 = Outcome.exit "AccessDenied" ∧
     countEvents Event.isCreateCall (provision envBadProbe cfgDemo "TPL").2 = 0 ∧
     countEvents Event.isUpdateCall (provision envBadProbe cfgDemo "TPL").2 = 0) :=
  ⟨(C4_thm envCreate cfgDemo "TPL" "Stack with id demo-app does not exist"
      rfl rfl).1 (by decide),
   (C4_thm envBadProbe cfgDemo "TPL" "AccessDenied" rfl rfl).2 (by decide)⟩

/-- C5: with a valid template, if no stack with the given name exists
(the probe raises the "does not exist" `ClientError`), `provision` issues
the create call exactly once and never the update call; if a stack with
that name exists (the probe returns it), `provision` issues the update
call exactly once and never the create call. -/
theorem C5_thm (env : Env) (cfg : Config) (template err : String)
    (hval : env.validateRes = .ok ()) :
    (env.describeRes = .error err → endswith err "does not exist" = true →
      countEvents Event.isCreateCall (provision env cfg template).2 = 1 ∧
      countEvents Event.isUpdateCall (provision env cfg template).2 = 0) ∧
    (env.describeRes = .ok [cfg.STACK_NAME] →
      countEvents Event.isUpdateCall (provision env cfg template).2 = 1 ∧
      countEvents Event.isCreateCall (provision env cfg template).2 = 0) := by
  constructor
  · intro hdesc hne
    exact (C4_thm env cfg template err hval hdesc).1 hne
  · intro hdesc
    obtain ⟨h1, h2, _⟩ := update_stack_counts env cfg template
    rcases hupd : update_stack env cfg template with ⟨o, ev⟩
    rw [hupd] at h1 h2
    simp only [Prod.snd] at h1 h2
    rcases o with e | b <;>
      simp [provision, provisionLoop, validate_template, hval, hdesc, hupd,
        pyIn_self, countEvents_append, countEvents_cons, countEvents_nil,
        Event.isCreateCall, Event.isUpdateCall, h1, h2]

theorem C5_witness :
    (countEvents Event.isCreateCall (provision envCreate cfgDemo "TPL").2 = 1 ∧
     countEvents Event.isUpdateCall (provision envCreate cfgDemo "TPL").2 = 0) ∧
    (countEvents Event.isUpdateCall (provision envUpdate cfgDemo "TPL").2 = 1 ∧
     countEvents Event.isCreateCall (provision envUpdate cfgDemo "TPL").2 = 0) :=
  ⟨(C5_thm envCreate cfgDemo "TPL" "Stack with id demo-app does not exist"
      rfl).1 rfl (by decide),
   (C5_thm envUpdate cfgDemo "TPL" "" rfl).2 rfl⟩

/-- C6: a template that fails remote validation makes `validate_template`
call `sys.exit` with the provider's error, the whole `provision` run
aborts with that error having issued only the validation call, and no
create, update or tags-only call is ever issued. -/
theorem C6_thm (env : Env) (cfg : Config) (template err : String)
    (hval : env.validateRes = .error err) :
    (validate_template env).1 = .exit err ∧
    provision env cfg template = (.exit err, [Event.validateCall]) ∧
    countEvents Event.isCreateCall (provision env cfg template).2 = 0 ∧
    countEvents Event.isUpdateCall (provision env cfg template).2 = 0 ∧
    countEvents Event.isTagCall (provision env cfg template).2 = 0 := by
  simp [provision, validate_template, hval, countEvents_cons, countEvents_nil,
    Event.isCreateCall, Event.isUpdateCall, Event.isTagCall]

theorem C6_witness :
    (validate_template envBadTpl).1 = Outcome.exit "Template format error" ∧
    provision envBadTpl cfgDemo "TPL"
      = (Outcome.exit "Template format error", [Event.validateCall]) ∧
    countEvents Event.isCreateCall (provision envBadTpl cfgDemo "TPL").2 = 0 ∧
    countEvents Event.isUpdateCall (provision envBadTpl cfgDemo "TPL").2 = 0 ∧
    countEvents Event.isTagCall (provision envBadTpl cfgDemo "TPL").2 = 0 :=
  C6_thm envBadTpl cfgDemo "TPL" "Template format error" rfl

/-- C7: on the create path the create call carries `CAPABILITY_IAM` and
`OnFailure='DO_NOTHING'` (leave partially-created resources in place),
is followed by a wait with poll interval 60, and on success the fixed tag
triple Billing_Env / Team / Project=stack name is applied; every wait the
update path ever issues uses poll interval 10, and 10 < 60. -/
theorem C7_thm (env : Env) (cfg : Config) (template err : String)
    (hval : env.validateRes = .ok ())
    (hdesc : env.describeRes = .error err)
    (hne : endswith err "does not exist" = true)
    (hcre : env.createRes = .ok ())
    (htag : env.tagRes = .ok ()) :
    provision env cfg template =
      (.ok true,
        [Event.validateCall,
         Event.describeCall cfg.STACK_NAME,
         Event.createCall cfg.STACK_NAME ["CAPABILITY_IAM"] template "DO_NOTHING",
         Event.waitCall cfg.STACK_NAME 60,
         Event.waitCall cfg.STACK_NAME 10,
         Event.tagUpdate cfg.STACK_NAME ["CAPABILITY_IAM"] true
           [("Billing_Env", cfg.BILLING_ENV), ("Team", cfg.TEAM),
            ("Project", cfg.STACK_NAME)],
         Event.waitCall cfg.STACK_NAME 10]) ∧
    (∀ n w, Event.waitCall n w ∈ (update_stack env cfg template).2 → w = 10) ∧
    10 < 60 := by
  refine ⟨?_, ?_, by omega⟩
  · simp [provision, validate_template, create_stack, set_tags, hval, hdesc,
      hne, hcre, htag]
  · intro n w hw
    rcases hu : env.updateRes with e | u <;>
      (simp [update_stack, set_tags, hu, htag] at hw;
       rcases hw with h | h | h | h <;> simp_all)

theorem C7_witness :
    provision envCreate cfgDemo "TPL" =
      (Outcome.ok true,
        [Event.validateCall,
         Event.describeCall "demo-app",
         Event.createCall "demo-app" ["CAPABILITY_IAM"] "TPL" "DO_NOTHING",
         Event.waitCall "demo-app" 60,
         Event.waitCall "demo-app" 10,
         Event.tagUpdate "demo-app" ["CAPABILITY_IAM"] true
           [("Billing_Env", "prod"), ("Team", "platform"),
            ("Project", "demo-app")],
         Event.waitCall "demo-app" 10]) :=
  (C7_thm envCreate cfgDemo "TPL" "Stack with id demo-app does not exist"
    rfl rfl (by decide) rfl rfl).1

/-- C9: when the stack already exists (the probe returns stacks), any
normal return of `provision` carries `False`: `ret` is set to `True` only
in the create branch, so an update run that succeeds end to end,
including tag reconciliation, still returns `False`. -/
theorem C9_thm (env : Env) (cfg : Config) (template : String)
    (stackList : List String)
    (hval : env.validateRes = .ok ())
    (hdesc : env.describeRes = .ok stackList) :
    (∀ b, (provision env cfg template).1 = Outcome.ok b → b = false) ∧
    (stackList = [cfg.STACK_NAME] → env.updateRes = .ok () →
      env.tagRes = .ok () →
      (provision env cfg template).1 = .ok false ∧
      (update_stack env cfg template).1 = .ok true ∧
      (set_tags env cfg.STACK_NAME cfg.BILLING_ENV cfg.TEAM).1 = .ok true) := by
  constructor
  · intro b hb
    rcases hloop : provisionLoop env cfg template stackList with ⟨o, ev2⟩
    rcases o with e | u <;>
      simp [provision, validate_template, hval, hdesc, hloop] at hb <;>
      simp [hb]
  · intro hsl hupd htag
    subst hsl
    refine ⟨?_, ?_, ?_⟩ <;>
      simp [provision, provisionLoop, validate_template, update_stack,
        set_tags, hval, hdesc, hupd, htag, pyIn_self]

theorem C9_witness :
    (provision envUpdate cfgDemo "TPL").1 = Outcome.ok false ∧
    (update_stack envUpdate cfgDemo "TPL").1 = Outcome.ok true ∧
    (set_tags envUpdate "demo-app" "prod" "platform").1 = Outcome.ok true :=
  (C9_thm envUpdate cfgDemo "TPL" ["demo-app"] rfl rfl).2 rfl rfl rfl

/-- C10: `set_tags` returns `True` exactly when the tags-only update was
applied without error; when the provider reports the benign no-op (error
message ending in "to be performed.") it returns `False` and the process
continues, and on any other error it calls `sys.exit` with that error. -/
theorem C10_thm (env : Env) (stack_name tag_value team : String) :
    (env.tagRes = .ok () →
      (set_tags env stack_name tag_value team).1 = .ok true) ∧
    (∀ e, env.tagRes = .error e → endswith e "to be performed." = true →
      (set_tags env stack_name tag_value team).1 = .ok false) ∧
    (∀ e, env.tagRes = .error e → endswith e "to be performed." = false →
      (set_tags env stack_name tag_value team).1 = .exit e) := by
  refine ⟨?_, ?_, ?_⟩
  · intro h
    simp [set_tags, h]
  · intro e h hb
    simp [set_tags, h, hb]
  · intro e h hb
    simp [set_tags, h, hb]

theorem C10_witness :
    (set_tags envUpdate "demo-app" "prod" "platform").1 = Outcome.ok true ∧
    (set_tags envTagNoop "demo-app" "prod" "platform").1 = Outcome.ok false ∧
    (set_tags envTagErr "demo-app" "prod" "platform").1
      = Outcome.exit "AccessDenied" :=
  ⟨(C10_thm envUpdate "demo-app" "prod" "platform").1 rfl,
   (C10_thm envTagNoop "demo-app" "prod" "platform").2.1
     "No updates are to be performed." rfl (by decide),
   (C10_thm envTagErr "demo-app" "prod" "platform").2.2
     "AccessDenied" rfl (by decide)⟩

end Provision
